import Mathlib

/-!
Shallow embedding of `src/src/winjitsu/winjitsu.py`, a window-geometry
utility.  The script performs no interesting IO of its own: every action
computes target rectangles and issues `xdotool windowsize` / `windowmove`
requests.  We embed each function as a pure Lean function; the stream of
requests issued to the window-control collaborator is reified as a
`List Request`, the on-disk geometry cache as a function `ℤ → Option Win`,
and the display layout (the result of parsing `xrandr` output) is passed
in explicitly where the Python code calls `get_screens()`.

Python float arithmetic in `move_window` and `direction` is modelled with
`ℚ`; every claim proved below depends only on values that are exact in
both models (integer-valued intermediates, or the final requests, which
the code computes directly from the integer inputs).
-/

namespace WinJitsu

/-- Python 3 `round`: round half to even (banker's rounding), on ℚ. -/
def pyround (q : ℚ) : ℤ :=
  let f : ℤ := ⌊q⌋
  let r : ℚ := q - f
  if r < 1/2 then f
  else if 1/2 < r then f + 1
  else if f % 2 = 0 then f else f + 1

/-- Python `int(...)` applied to a number: truncation toward zero. -/
def pytrunc (q : ℚ) : ℤ :=
  if q < 0 then ⌈q⌉ else ⌊q⌋

/-- A display as parsed from one `xrandr` block: `{'width': w, 'height': h}`. -/
structure Screen where
  width : ℤ
  height : ℤ
deriving DecidableEq, Repr

/-- The active window's geometry as returned by `get_window_position`:
the `WINDOW, X, Y, WIDTH, HEIGHT` fields of `xdotool getwindowgeometry --shell`. -/
structure Win where
  window : ℤ
  x : ℤ
  y : ℤ
  width : ℤ
  height : ℤ
deriving DecidableEq, Repr

/-- One request issued to the window-control collaborator (`xdotool`):
`windowsize <id> <w> <h>` or `windowmove <id> <x> <y>`. -/
inductive Request where
  | resize (window : ℤ) (w : ℤ) (h : ℤ)
  | move (window : ℤ) (x : ℤ) (y : ℤ)
deriving DecidableEq, Repr

/-- The mutable loop state of `move_window`: `new_w, new_h, new_x, new_y`. -/
structure AnimState where
  w : ℚ
  h : ℚ
  x : ℚ
  y : ℚ

/-- The `for _ in range(steps)` loop body of `move_window`: accumulate the
deltas, then issue one rounded resize and one rounded move per iteration. -/
def animSteps (w_step h_step x_move_step y_move_step : ℚ) (window : ℤ) :
    Nat → AnimState → List Request
  | 0, _ => []
  | Nat.succ n, s =>
    let s' : AnimState := ⟨s.w + w_step, s.h + h_step, s.x - x_move_step, s.y - y_move_step⟩
    Request.resize window (pyround s'.w) (pyround s'.h) ::
    Request.move window (pyround s'.x) (pyround s'.y) ::
    animSteps w_step h_step x_move_step y_move_step window n s'

/-- `move_window(target_w, target_h, window_id, current_w, current_h,
current_x, current_y, target_x, target_y)`: 25 interpolation steps, then a
final request pair at the `int(...)`-truncated targets. -/
def move_window (target_w target_h : ℚ) (window_id : ℤ)
    (current_w current_h current_x current_y target_x target_y : ℚ) :
    List Request :=
  let steps : ℚ := 25
  let w_step := (target_w - current_w) / steps
  let h_step := (target_h - current_h) / steps
  let x_move_step := (current_x - target_x) / steps
  let y_move_step := (current_y - target_y) / steps
  animSteps w_step h_step x_move_step y_move_step window_id 25
      ⟨current_w, current_h, current_x, current_y⟩ ++
  [Request.resize window_id (pytrunc target_w) (pytrunc target_h),
   Request.move window_id (pytrunc target_x) (pytrunc target_y)]

/-- The geometry cache (one `<window_id>.pid` file per window under the
cache directory), modelled as a map from window id to the saved record. -/
def Cache : Type := ℤ → Option Win

/-- `save_pid`: write (overwrite) the record for one window id. -/
def save_pid (window_id : ℤ) (data : Win) (c : Cache) : Cache :=
  fun k => if k = window_id then some data else c k

/-- `load_pid`: read the record for one window id, `none` when the file
does not exist. -/
def load_pid (window_id : ℤ) (c : Cache) : Option Win :=
  c window_id

/-- `clear_cache`: remove the whole cache directory. -/
def clear_cache : Cache :=
  fun _ => none

/-- The triple `(width, height, x_offset_base)` returned by
`get_screen_for_window`. -/
structure ScreenInfo where
  width : ℤ
  height : ℤ
  x_offset_base : ℤ
deriving DecidableEq, Repr

/-- `get_screen_for_window(x_pos)`.  The Python function calls
`get_screens()` internally; its result `(primary, others)` is passed here
explicitly. -/
def get_screen_for_window (primary : Option Screen) (others : List Screen)
    (x_pos : ℤ) : ScreenInfo :=
  match primary with
  | none => ⟨1920, 1080, 0⟩
  | some p =>
    if x_pos > p.width - 1 then
      match others with
      | other :: _ => ⟨other.width, other.height, p.width⟩
      | [] => ⟨p.width, p.height, 0⟩
    else ⟨p.width, p.height, 0⟩

/-- The `fullscreen` action: save the current geometry, then animate to
`(screen_w - 10, screen_h - 10)` at offset `(base + 5 | 5, 5)`.  Returns
the updated cache and the issued requests. -/
def fullscreen (win : Win) (primary : Option Screen) (others : List Screen)
    (c : Cache) : Cache × List Request :=
  let c' := save_pid win.window win c
  let s := get_screen_for_window primary others win.x
  let x_offset : ℤ := if s.x_offset_base > 0 then s.x_offset_base + 5 else 5
  let y_offset : ℤ := 5
  let target_w := s.width - 10
  let target_h := s.height - 10
  (c', move_window (target_w : ℚ) (target_h : ℚ) win.window
    (win.width : ℚ) (win.height : ℚ) (win.x : ℚ) (win.y : ℚ)
    (x_offset : ℚ) (y_offset : ℚ))

/-- The `unscreen` action: restore to the cached record (no-op when there
is none), animating from the synthetic start rectangle
`(WIDTH - 10, HEIGHT - 10)` at `(x_offset, 5)`. -/
def unscreen (win : Win) (primary : Option Screen) (others : List Screen)
    (c : Cache) : List Request :=
  let s := get_screen_for_window primary others win.x
  let x_offset : ℤ := if s.x_offset_base > 0 then s.x_offset_base else 5
  let y_offset : ℤ := 5
  match load_pid win.window c with
  | none => []
  | some saved =>
    let start_w := win.width - 10
    let start_h := win.height - 10
    move_window (saved.width : ℚ) (saved.height : ℚ) win.window
      (start_w : ℚ) (start_h : ℚ) (x_offset : ℚ) (y_offset : ℚ)
      (saved.x : ℚ) (saved.y : ℚ)

/-- The `toggle_fullscreen` action: `unscreen` when the window width
equals `screen_w - 10`, else `fullscreen`. -/
def toggle_fullscreen (win : Win) (primary : Option Screen)
    (others : List Screen) (c : Cache) : Cache × List Request :=
  let s := get_screen_for_window primary others win.x
  if win.width = s.width - 10 then (c, unscreen win primary others c)
  else fullscreen win primary others c

/-- The four target values computed by the `direction` action before its
`move_window` call. -/
structure Targets where
  target_w : ℚ
  target_h : ℚ
  target_x : ℚ
  target_y : ℚ
deriving DecidableEq, Repr

/-- The target-selection `if/elif` chain of `direction(direction_code)`.
Defaults (`target_w = WIDTH`, `target_h = HEIGHT`, `target_x = target_y = 0`)
apply when no branch matches. -/
def direction_target (direction_code : String) (win : Win)
    (screen_w screen_h base_x_offset : ℚ) : Targets :=
  let half_w := screen_w / 2
  let half_h := screen_h / 2
  if direction_code = "N" then ⟨screen_w, half_h, base_x_offset, 0⟩
  else if direction_code = "S" then ⟨screen_w, half_h, base_x_offset, half_h⟩
  else if direction_code = "E" then ⟨half_w, screen_h, base_x_offset + half_w, 0⟩
  else if direction_code = "W" then ⟨half_w, screen_h, base_x_offset, 0⟩
  else if direction_code = "NE" then ⟨half_w, half_h, base_x_offset + half_w, 0⟩
  else if direction_code = "NW" then ⟨half_w, half_h, base_x_offset, 0⟩
  else if direction_code = "SE" then ⟨half_w, half_h, base_x_offset + half_w, half_h⟩
  else if direction_code = "SW" then ⟨half_w, half_h, base_x_offset, half_h⟩
  else if direction_code = "C" then
    ⟨(win.width : ℚ), (win.height : ℚ),
     (screen_w - (win.width : ℚ)) / 2 + base_x_offset,
     (screen_h - (win.height : ℚ)) / 2⟩
  else ⟨(win.width : ℚ), (win.height : ℚ), 0, 0⟩

/-- The `direction` action: compute the target rectangle for the given
direction code and animate to it. -/
def direction (direction_code : String) (win : Win) (primary : Option Screen)
    (others : List Screen) : List Request :=
  let s := get_screen_for_window primary others win.x
  let t := direction_target direction_code win (s.width : ℚ) (s.height : ℚ)
    (s.x_offset_base : ℚ)
  move_window t.target_w t.target_h win.window
    (win.width : ℚ) (win.height : ℚ) (win.x : ℚ) (win.y : ℚ)
    t.target_x t.target_y

/-! ### The `get_screens` parser

`get_screens()` runs `xrandr`, splits its output into lines, and scans
every line containing `" connected"`; the immediately following line's
first whitespace-delimited token is parsed as `<w>x<h>` via
`w, h = map(int, res_str.split('x'))`.  A Python `ValueError` raised by
that unpacking (wrong number of `'x'`-separated parts, or a part that is
not an integer literal) propagates out of the function; we model it as
`Except.error ()`. -/

/-- Python's `sub in s` substring test, on strings as character lists. -/
def containsSub (sub s : List Char) : Bool :=
  s.tails.any (fun t => sub.isPrefixOf t)

/-- Python's `s.strip()`: remove leading and trailing whitespace. -/
def pystrip (cs : List Char) : List Char :=
  ((cs.dropWhile Char.isWhitespace).reverse.dropWhile Char.isWhitespace).reverse

/-- Accumulator worker for `pysplitWS` (`acc` holds the current token,
reversed). -/
def pysplitWSAux : List Char → List Char → List (List Char)
  | [], acc => if acc = [] then [] else [acc.reverse]
  | c :: cs, acc =>
    if c.isWhitespace then
      if acc = [] then pysplitWSAux cs [] else acc.reverse :: pysplitWSAux cs []
    else pysplitWSAux cs (c :: acc)

/-- Python's `s.split()` with no separator: split on whitespace runs,
producing no empty tokens. -/
def pysplitWS (cs : List Char) : List (List Char) :=
  pysplitWSAux cs []

/-- Accumulator worker for `splitOnChar`. -/
def splitOnCharAux (sep : Char) : List Char → List Char → List (List Char)
  | [], acc => [acc.reverse]
  | c :: cs, acc =>
    if c = sep then acc.reverse :: splitOnCharAux sep cs []
    else splitOnCharAux sep cs (c :: acc)

/-- Python's `s.split(sep)` for a one-character separator: every
occurrence of `sep` delimits a (possibly empty) token. -/
def splitOnChar (sep : Char) (cs : List Char) : List (List Char) :=
  splitOnCharAux sep cs []

/-- Decimal-digit accumulator for `pyint`. -/
def parseDigitsAux : List Char → ℕ → Option ℕ
  | [], acc => some acc
  | c :: cs, acc =>
    if c.isDigit then parseDigitsAux cs (acc * 10 + (c.toNat - 48)) else none

/-- Python's `int(s)` on a string: optional sign followed by a nonempty
digit string (surrounding whitespace stripped); `none` models the
`ValueError` raised otherwise. -/
def pyint (s : List Char) : Option ℤ :=
  match pystrip s with
  | [] => none
  | '-' :: rest =>
    match rest with
    | [] => none
    | _ => (parseDigitsAux rest 0).map (fun n => -(n : ℤ))
  | '+' :: rest =>
    match rest with
    | [] => none
    | _ => (parseDigitsAux rest 0).map (fun n => (n : ℤ))
  | cs => (parseDigitsAux cs 0).map (fun n => (n : ℤ))

/-- The unpacking `w, h = map(int, res_str.split('x'))`: succeeds exactly
when the split yields two tokens and both parse as integers; any other
outcome raises `ValueError`, modelled as `Except.error ()`. -/
def parse_resolution (res_str : List Char) : Except Unit (ℤ × ℤ) :=
  match (splitOnChar 'x' res_str).map pyint with
  | [some w, some h] => Except.ok (w, h)
  | _ => Except.error ()

/-- The `for i, line in enumerate(lines)` loop of `get_screens`.  The
loop looks ahead at `lines[i+1]` but advances one line at a time, so the
resolution line is itself examined as a candidate display line on the
next iteration — the recursion therefore continues on the full tail. -/
def get_screens_go : List (List Char) → Option Screen → List Screen →
    Except Unit (Option Screen × List Screen)
  | [], primary, others => Except.ok (primary, others)
  | line :: rest, primary, others =>
    if containsSub " connected".toList line then
      let is_primary := containsSub " primary".toList line
      match rest with
      | [] => get_screens_go rest primary others
      | next :: _ =>
        let res_line := pystrip next
        match pysplitWS res_line with
        | [] => get_screens_go rest primary others
        | res_str :: _ =>
          if res_str.contains 'x' then
            match parse_resolution res_str with
            | Except.error e => Except.error e
            | Except.ok wh =>
              if is_primary then get_screens_go rest (some ⟨wh.1, wh.2⟩) others
              else get_screens_go rest primary (others ++ [⟨wh.1, wh.2⟩])
          else get_screens_go rest primary others
    else get_screens_go rest primary others

/-- `get_screens()`, applied to the `splitlines()` of the `xrandr`
output: returns the last-seen primary display and the non-primary
displays in textual order, or an error when a resolution token with an
`'x'` fails to parse. -/
def get_screens (lines : List String) :
    Except Unit (Option Screen × List Screen) :=
  get_screens_go (lines.map String.toList) none []

/-- `true` exactly when the first token of the candidate resolution line
exists and contains the character `'x'` — i.e. when `get_screens`
attempts to parse it at all. -/
def headTokenHasX : List (List Char) → Bool
  | [] => false
  | t :: _ => t.contains 'x'

/-- The `toggle_display` action: returns early (no requests) when no
primary display exists; otherwise shifts x by `±primary_width`. -/
def toggle_display (win : Win) (primary : Option Screen) : List Request :=
  match primary with
  | none => []
  | some p =>
    let shift : ℤ := if win.x > p.width - 1 then -p.width else p.width
    let target_x := win.x + shift
    move_window (win.width : ℚ) (win.height : ℚ) win.window
      (win.width : ℚ) (win.height : ℚ) (win.x : ℚ) (win.y : ℚ)
      (target_x : ℚ) (win.y : ℚ)

/-! ### Helper lemmas -/

theorem pytrunc_intCast (n : ℤ) : pytrunc (n : ℚ) = n := by
  unfold pytrunc
  split
  · exact Int.ceil_intCast n
  · exact Int.floor_intCast n

theorem pyround_intCast (n : ℤ) : pyround (n : ℚ) = n := by
  unfold pyround
  simp only [Int.floor_intCast, sub_self]
  norm_num

theorem animSteps_length (a b c d : ℚ) (id : ℤ) :
    ∀ (n : Nat) (s : AnimState), (animSteps a b c d id n s).length = 2 * n := by
  intro n
  induction n with
  | zero => intro s; rfl
  | succ m ih =>
    intro s
    simp only [animSteps, List.length_cons, ih]
    omega

theorem move_window_length (tw th : ℚ) (id : ℤ) (cw ch cx cy tx ty : ℚ) :
    (move_window tw th id cw ch cx cy tx ty).length = 52 := by
  unfold move_window
  rw [List.length_append, animSteps_length]
  rfl

theorem move_window_drop (tw th : ℚ) (id : ℤ) (cw ch cx cy tx ty : ℚ) :
    (move_window tw th id cw ch cx cy tx ty).drop 50 =
      [Request.resize id (pytrunc tw) (pytrunc th),
       Request.move id (pytrunc tx) (pytrunc ty)] := by
  unfold move_window
  have h : (animSteps ((tw - cw) / 25) ((th - ch) / 25) ((cx - tx) / 25)
      ((cy - ty) / 25) id 25 ⟨cw, ch, cx, cy⟩).length = 50 :=
    animSteps_length _ _ _ _ _ _ _
  rw [← h, List.drop_left]

theorem animSteps_zero (id : ℤ) :
    ∀ (n : Nat) (s : AnimState),
      animSteps 0 0 0 0 id n s =
        (List.replicate n
          [Request.resize id (pyround s.w) (pyround s.h),
           Request.move id (pyround s.x) (pyround s.y)]).flatten := by
  intro n
  induction n with
  | zero => intro s; rfl
  | succ m ih =>
    intro s
    simp only [animSteps, add_zero, sub_zero, ih, List.replicate_succ,
      List.flatten_cons]
    rfl

/-- The per-request predicate used for `toggle_display`: every resize
carries the fixed width/height and every move the fixed y. -/
def fixedWHY (W H Y : ℤ) : Request → Bool
  | Request.resize _ w h => w == W && h == H
  | Request.move _ _ y => y == Y

theorem animSteps_fixedWHY (xs : ℚ) (id W H Y : ℤ) :
    ∀ (n : Nat) (s : AnimState), pyround s.w = W → pyround s.h = H →
      pyround s.y = Y →
      ((animSteps 0 0 xs 0 id n s).all (fixedWHY W H Y)) = true := by
  intro n
  induction n with
  | zero => intro s _ _ _; rfl
  | succ m ih =>
    intro s hw hh hy
    simp only [animSteps, add_zero, sub_zero, List.all_cons]
    rw [ih ⟨s.w, s.h, s.x - xs, s.y⟩ hw hh hy]
    simp [fixedWHY, hw, hh, hy]

theorem move_window_fixedWHY (W H Y id : ℤ) (cx tx : ℚ) :
    ((move_window (W : ℚ) (H : ℚ) id (W : ℚ) (H : ℚ) cx (Y : ℚ) tx
      (Y : ℚ)).all (fixedWHY W H Y)) = true := by
  unfold move_window
  simp only [sub_self, zero_div]
  rw [List.all_append, Bool.and_eq_true]
  constructor
  · exact animSteps_fixedWHY _ _ _ _ _ 25 ⟨(W : ℚ), (H : ℚ), cx, (Y : ℚ)⟩
      (pyround_intCast W) (pyround_intCast H) (pyround_intCast Y)
  · simp [fixedWHY, pytrunc_intCast]

theorem get_screen_for_window_default (x : ℤ) :
    get_screen_for_window (some ⟨1920, 1080⟩) [] x = ⟨1920, 1080, 0⟩ := by
  simp only [get_screen_for_window]
  split <;> rfl

/-! ### Claim theorems -/

/-- C1: for every input tuple, `move_window` performs exactly 25
interpolation steps (two requests each, 52 requests in total) and its
final resize and move requests carry exactly the integer-truncated
targets `int(target_w), int(target_h), int(target_x), int(target_y)`,
independently of the rounding applied in the intermediate steps. -/
theorem move_window_final_exact (target_w target_h : ℚ) (window_id : ℤ)
    (current_w current_h current_x current_y target_x target_y : ℚ) :
    (move_window target_w target_h window_id current_w current_h current_x
      current_y target_x target_y).length = 2 * 25 + 2 ∧
    (move_window target_w target_h window_id current_w current_h current_x
      current_y target_x target_y).drop 50 =
      [Request.resize window_id (pytrunc target_w) (pytrunc target_h),
       Request.move window_id (pytrunc target_x) (pytrunc target_y)] :=
  ⟨move_window_length _ _ _ _ _ _ _ _ _,
   move_window_drop _ _ _ _ _ _ _ _ _⟩

/-- C10: animating with current equal to target issues the same
rectangle in all 25 intermediate step pairs and in the final pair: all
per-step deltas are zero. -/
theorem move_window_identity (w h x y window_id : ℤ) :
    move_window (w : ℚ) (h : ℚ) window_id (w : ℚ) (h : ℚ) (x : ℚ) (y : ℚ)
        (x : ℚ) (y : ℚ) =
      (List.replicate 25
        [Request.resize window_id w h, Request.move window_id x y]).flatten ++
      [Request.resize window_id w h, Request.move window_id x y] := by
  unfold move_window
  simp only [sub_self, zero_div, animSteps_zero, pyround_intCast,
    pytrunc_intCast]

/-- C2: with a primary display of width `P`, `get_screen_for_window`
yields the primary's data with base 0 iff `x ≤ P - 1`; past that it
yields the first secondary with base `P` when one exists, and falls back
to the primary's data with base 0 when none does. -/
theorem get_screen_for_window_selects (p : Screen) (others : List Screen)
    (x : ℤ) :
    get_screen_for_window (some p) others x =
      if x ≤ p.width - 1 then (⟨p.width, p.height, 0⟩ : ScreenInfo)
      else
        match others with
        | [] => (⟨p.width, p.height, 0⟩ : ScreenInfo)
        | o :: _ => (⟨o.width, o.height, p.width⟩ : ScreenInfo) := by
  simp only [get_screen_for_window]
  rcases le_or_lt x (p.width - 1) with h | h
  · rw [if_neg (not_lt.mpr h), if_pos h]
  · rw [if_pos h, if_neg (not_le.mpr h)]
    cases others <;> rfl

/-- C3: the `direction` action computes exactly the target table of the
spec: N/S full width and half height at y 0 and `screen_h / 2`, E/W half
width and full height at `base + screen_w / 2` and `base`, the four
quarters NE/NW/SE/SW half width and half height tiling the screen, and C
keeping the window size centred; the N/S heights and E/W widths sum to
the screen dimensions. -/
theorem direction_targets_table (win : Win) (sw sh b : ℚ) :
    direction_target "N" win sw sh b = ⟨sw, sh / 2, b, 0⟩ ∧
    direction_target "S" win sw sh b = ⟨sw, sh / 2, b, sh / 2⟩ ∧
    direction_target "E" win sw sh b = ⟨sw / 2, sh, b + sw / 2, 0⟩ ∧
    direction_target "W" win sw sh b = ⟨sw / 2, sh, b, 0⟩ ∧
    direction_target "NE" win sw sh b = ⟨sw / 2, sh / 2, b + sw / 2, 0⟩ ∧
    direction_target "NW" win sw sh b = ⟨sw / 2, sh / 2, b, 0⟩ ∧
    direction_target "SE" win sw sh b = ⟨sw / 2, sh / 2, b + sw / 2, sh / 2⟩ ∧
    direction_target "SW" win sw sh b = ⟨sw / 2, sh / 2, b, sh / 2⟩ ∧
    direction_target "C" win sw sh b =
      ⟨(win.width : ℚ), (win.height : ℚ),
       (sw - (win.width : ℚ)) / 2 + b, (sh - (win.height : ℚ)) / 2⟩ ∧
    (direction_target "N" win sw sh b).target_h +
      (direction_target "S" win sw sh b).target_h = sh ∧
    (direction_target "E" win sw sh b).target_w +
      (direction_target "W" win sw sh b).target_w = sw := by
  refine ⟨rfl, rfl, rfl, rfl, rfl, rfl, rfl, rfl, rfl, ?_, ?_⟩
  · show sh / 2 + sh / 2 = sh
    ring
  · show sw / 2 + sw / 2 = sw
    ring

/-- C4: `fullscreen` writes the window's current geometry to the cache
under its window id and animates to size
`(screen_w - 10, screen_h - 10)` at `(base + 5, 5)` on a secondary
display (`base > 0`) and `(5, 5)` on the primary; with primary
1920×1080, secondary 1280×1024 and `x = 2000` this is `(1925, 5)` with
size `1270 × 1014`. -/
theorem fullscreen_saves_and_targets (win : Win) (primary : Option Screen)
    (others : List Screen) (c : Cache) :
    (fullscreen win primary others c).1 = save_pid win.window win c ∧
    (fullscreen win primary others c).2.length = 52 ∧
    (fullscreen win primary others c).2.drop 50 =
      [Request.resize win.window
        ((get_screen_for_window primary others win.x).width - 10)
        ((get_screen_for_window primary others win.x).height - 10),
       Request.move win.window
        (if (get_screen_for_window primary others win.x).x_offset_base > 0
         then (get_screen_for_window primary others win.x).x_offset_base + 5
         else 5) 5] := by
  refine ⟨rfl, move_window_length _ _ _ _ _ _ _ _ _, ?_⟩
  show (move_window _ _ _ _ _ _ _ _ _).drop 50 = _
  rw [move_window_drop]
  simp only [pytrunc_intCast]

/-- C5: running `fullscreen` and then `unscreen` on the same window id
ends with a final resize/move pair carrying exactly the geometry that
`fullscreen` saved, whatever the window's geometry and the display
layout are at restore time. -/
theorem fullscreen_then_unscreen_restores (win win2 : Win)
    (primary primary2 : Option Screen) (others others2 : List Screen)
    (c : Cache) (h : win2.window = win.window) :
    (unscreen win2 primary2 others2 (fullscreen win primary others c).1).length
      = 52 ∧
    (unscreen win2 primary2 others2 (fullscreen win primary others c).1).drop 50
      = [Request.resize win.window win.width win.height,
         Request.move win.window win.x win.y] := by
  have hload : load_pid win2.window (fullscreen win primary others c).1
      = some win := by
    show load_pid win2.window (save_pid win.window win c) = some win
    unfold load_pid save_pid
    rw [if_pos h]
  constructor
  · unfold unscreen
    rw [hload]
    exact move_window_length _ _ _ _ _ _ _ _ _
  · unfold unscreen
    rw [hload]
    show (move_window _ _ win2.window _ _ _ _ _ _).drop 50 = _
    rw [move_window_drop]
    simp only [pytrunc_intCast, h]

/-- Witness for C5 at the spec's concrete scenario: window id 123 at
(2000, 0) sized 800×600 is maximized and then restored; the restore's
final requests carry exactly 800×600 at (2000, 0). -/
theorem fullscreen_then_unscreen_restores_witness :
    (⟨123, 1925, 5, 1270, 1014⟩ : Win).window
        = (⟨123, 2000, 0, 800, 600⟩ : Win).window ∧
    ((unscreen ⟨123, 1925, 5, 1270, 1014⟩ (some ⟨1920, 1080⟩) [⟨1280, 1024⟩]
        (fullscreen ⟨123, 2000, 0, 800, 600⟩ (some ⟨1920, 1080⟩)
          [⟨1280, 1024⟩] clear_cache).1).length = 52 ∧
     (unscreen ⟨123, 1925, 5, 1270, 1014⟩ (some ⟨1920, 1080⟩) [⟨1280, 1024⟩]
        (fullscreen ⟨123, 2000, 0, 800, 600⟩ (some ⟨1920, 1080⟩)
          [⟨1280, 1024⟩] clear_cache).1).drop 50
       = [Request.resize 123 800 600, Request.move 123 2000 0]) :=
  ⟨by decide,
   fullscreen_then_unscreen_restores ⟨123, 2000, 0, 800, 600⟩
     ⟨123, 1925, 5, 1270, 1014⟩ (some ⟨1920, 1080⟩) (some ⟨1920, 1080⟩)
     [⟨1280, 1024⟩] [⟨1280, 1024⟩] clear_cache (by decide)⟩

/-- C6: `unscreen` with no cached record for the window id issues no
request at all, and in particular `unscreen` right after `clear_cache`
issues no request for any window id. -/
theorem unscreen_cache_miss_noop (win : Win) (primary : Option Screen)
    (others : List Screen) (c : Cache)
    (h : load_pid win.window c = none) :
    unscreen win primary others c = [] ∧
    unscreen win primary others clear_cache = [] := by
  constructor
  · unfold unscreen
    rw [h]
  · unfold unscreen
    rfl

/-- Witness for C6: window id 7 restored right after a cache clear. -/
theorem unscreen_cache_miss_noop_witness :
    load_pid (⟨7, 0, 0, 100, 100⟩ : Win).window clear_cache = none ∧
    (unscreen ⟨7, 0, 0, 100, 100⟩ none [] clear_cache = [] ∧
     unscreen ⟨7, 0, 0, 100, 100⟩ none [] clear_cache = []) :=
  ⟨rfl, unscreen_cache_miss_noop ⟨7, 0, 0, 100, 100⟩ none [] clear_cache rfl⟩

/-- C7: `toggle_display` with a primary of width `P` issues 52 requests
whose final move is to `x + P` when `x ≤ P - 1` and to `x - P`
otherwise, while every resize in the animation carries the unchanged
width and height and every move the unchanged y (width, height and y are
passed as both current and target). -/
theorem toggle_display_spec (win : Win) (p : Screen) :
    (toggle_display win (some p)).length = 52 ∧
    (toggle_display win (some p)).drop 50 =
      [Request.resize win.window win.width win.height,
       Request.move win.window
        (if win.x ≤ p.width - 1 then win.x + p.width else win.x - p.width)
        win.y] ∧
    (toggle_display win (some p)).all
      (fixedWHY win.width win.height win.y) = true := by
  refine ⟨move_window_length _ _ _ _ _ _ _ _ _, ?_, ?_⟩
  · have htx : win.x + (if win.x > p.width - 1 then -p.width else p.width)
        = if win.x ≤ p.width - 1 then win.x + p.width else win.x - p.width := by
      rcases le_or_lt win.x (p.width - 1) with h | h
      · rw [if_neg (not_lt.mpr h), if_pos h]
      · rw [if_pos h, if_neg (not_le.mpr h)]
        omega
    show (move_window _ _ _ _ _ _ _ _ _).drop 50 = _
    rw [move_window_drop]
    simp only [pytrunc_intCast, htx]
  · exact move_window_fixedWHY win.width win.height win.y win.window
      (win.x : ℚ)
      ((win.x + (if win.x > p.width - 1 then -p.width else p.width) : ℤ) : ℚ)

/-- C8 counterexample: a connected display whose following line's first
token is `"foxy"` — which has no parseable `WxH` resolution token — is
not silently omitted: `int("fo")` raises `ValueError` and `get_screens`
crashes, so the later primary display is not parsed either. -/
theorem get_screens_unparseable_token_crashes :
    get_screens ["HDMI-1 connected", "foxy 60.00",
      "DP-1 connected primary", "1920x1080 60.00"] = Except.error () := rfl

/-- C8 (amended): a connected display whose following line's first
whitespace-delimited token contains no `'x'` character (or whose
following line has no token at all) is silently skipped, and the scan
continues with the remaining lines untouched, so the remaining displays
are parsed in textual order. -/
theorem get_screens_skips_tokenless_line (line next : List Char)
    (rest : List (List Char)) (primary : Option Screen) (others : List Screen)
    (hconn : containsSub " connected".toList line = true)
    (htok : headTokenHasX (pysplitWS (pystrip next)) = false) :
    get_screens_go (line :: next :: rest) primary others
      = get_screens_go (next :: rest) primary others := by
  rw [get_screens_go]
  simp only [hconn, if_true]
  cases hsp : pysplitWS (pystrip next) with
  | nil => rfl
  | cons t ts =>
    rw [hsp] at htok
    simp only [headTokenHasX] at htok
    simp only [htok, Bool.false_eq_true, if_false]

/-- Witness for the amended C8: a connected display followed by the
resolution-free line `"(no res)"` is skipped and the later primary
display is still parsed. -/
theorem get_screens_skips_tokenless_line_witness :
    containsSub " connected".toList "HDMI-1 connected".toList = true ∧
    headTokenHasX (pysplitWS (pystrip "(no res)".toList)) = false ∧
    get_screens_go ("HDMI-1 connected".toList :: "(no res)".toList ::
        ["DP-1 connected primary".toList, "1920x1080 60.00".toList]) none []
      = get_screens_go ("(no res)".toList ::
        ["DP-1 connected primary".toList, "1920x1080 60.00".toList]) none [] :=
  ⟨by decide, by decide,
   get_screens_skips_tokenless_line "HDMI-1 connected".toList
     "(no res)".toList
     ["DP-1 connected primary".toList, "1920x1080 60.00".toList] none []
     (by decide) (by decide)⟩

/-- C9 counterexample: with no primary display, `toggle_display` does
not fall back to the default 1920×1080 resolution — it returns without
issuing any request, unlike the same call with a 1920×1080 primary. -/
theorem toggle_display_no_primary_not_default :
    toggle_display ⟨123, 100, 50, 800, 600⟩ none
      ≠ toggle_display ⟨123, 100, 50, 800, 600⟩ (some ⟨1920, 1080⟩) := by
  intro h
  have h52 : (toggle_display ⟨123, 100, 50, 800, 600⟩
      (some ⟨1920, 1080⟩)).length = 52 :=
    move_window_length _ _ _ _ _ _ _ _ _
  rw [← h] at h52
  exact absurd h52 (by decide)

/-- C9 (amended): when no display is marked primary,
`get_screen_for_window` — consulted by the directional, fullscreen,
restore and toggle-fullscreen actions — returns the hardcoded default
`(1920, 1080, 0)` instead of failing, and those four actions behave
exactly as they would on a sole 1920×1080 primary display;
`toggle_display` alone does not use the default: it returns without
issuing any request. -/
theorem no_primary_fallback (win : Win) (others : List Screen) (c : Cache)
    (direction_code : String) (x : ℤ) :
    get_screen_for_window none others x = ⟨1920, 1080, 0⟩ ∧
    direction direction_code win none others
      = direction direction_code win (some ⟨1920, 1080⟩) [] ∧
    fullscreen win none others c = fullscreen win (some ⟨1920, 1080⟩) [] c ∧
    unscreen win none others c = unscreen win (some ⟨1920, 1080⟩) [] c ∧
    toggle_fullscreen win none others c
      = toggle_fullscreen win (some ⟨1920, 1080⟩) [] c ∧
    toggle_display win none = [] := by
  refine ⟨rfl, ?_, ?_, ?_, ?_, rfl⟩
  · unfold direction
    rw [get_screen_for_window_default]
    rfl
  · unfold fullscreen
    rw [get_screen_for_window_default]
    rfl
  · unfold unscreen
    rw [get_screen_for_window_default]
    rfl
  · unfold toggle_fullscreen
    rw [get_screen_for_window_default]
    unfold fullscreen unscreen
    rw [get_screen_for_window_default]
    rfl

end WinJitsu
